import Mathlib

/-!
Verification of the Sales-Performance-Dashboard core:
the ETL normalizer (`etl/clean_superstore.py`) and the
filter-and-aggregate query engine (`dash_app/app.py`),
shallowly embedded in Lean.  Machine floats are modelled by `ℚ`;
pandas missing values (`NaN`/`NaT`) by `Option`; the pandas
parsing primitives (`to_datetime`, `to_numeric`, `astype("Int64")`,
timedelta days) are external library collaborators and are taken as
explicit function parameters of the pipeline.
-/

namespace Superstore

/-! ## Column-name normalization (`normalize_columns`) -/

/-- Tokenizer for Python `str.split()` with no argument: splits on runs of
whitespace, discarding empty tokens.  `acc` holds the current word reversed. -/
def wordsAux (acc : List Char) : List Char → List (List Char)
  | [] => if acc = [] then [] else [acc.reverse]
  | c :: cs =>
    if c.isWhitespace then
      if acc = [] then wordsAux [] cs else acc.reverse :: wordsAux [] cs
    else wordsAux (c :: acc) cs

/-- Python `s.strip().split()`: whitespace-delimited words of `s`. -/
def words (s : String) : List (List Char) :=
  wordsAux [] s.data

/-- Python `" ".join(ws)` over character-list words. -/
def joinSpace : List (List Char) → List Char
  | [] => []
  | [w] => w
  | w :: ws => w ++ ' ' :: joinSpace ws

/-- `" ".join(str(c).strip().split())`: trim and collapse internal runs of
whitespace in a column name. -/
def normName (s : String) : String :=
  ⟨joinSpace (words s)⟩

/-- The fixed alternate-spelling map `renames` of `normalize_columns`. -/
def renames : List (String × String) :=
  [("Order Date", "Order Date"), ("Ship Date", "Ship Date"),
   ("Order ID", "Order ID"), ("Customer ID", "Customer ID"),
   ("Customer Name", "Customer Name"), ("Product ID", "Product ID"),
   ("Product Name", "Product Name"), ("Sub-Category", "Sub-Category"),
   ("Sub Category", "Sub-Category"), ("Category", "Category"),
   ("Segment", "Segment"), ("Region", "Region"), ("State", "State"),
   ("City", "City"), ("Postal Code", "Postal Code"),
   ("Ship Mode", "Ship Mode"), ("Sales", "Sales"), ("Profit", "Profit"),
   ("Discount", "Discount"), ("Quantity", "Quantity")]

/-- `df.rename(columns={c: renames[c] for c in df.columns if c in renames})`:
rename only where a key is present, leave other names untouched. -/
def applyRenames (c : String) : String :=
  match renames.lookup c with
  | some v => v
  | none => c

/-- `normalize_columns` on the header row: first the whitespace clean-up
rename, then the alternate-spelling rename. -/
def normalize_columns (cols : List String) : List String :=
  (cols.map normName).map applyRenames

/-! ## `discount_bucket` -/

/-- `discount_bucket` from `etl/clean_superstore.py`.  The argument models the
cell after `pd.to_numeric(..., errors="coerce")`: `none` is `NaN` (caught by
`pd.isna`); a non-numeric value that would raise inside the comparisons is
likewise modelled by `none` since the `except` clause also yields
`"Unknown"`. -/
def discount_bucket : Option ℚ → String
  | none => "Unknown"
  | some x =>
    if x = 0 then "No Discount"
    else if x ≤ 0.20 then "Low (0–20%)"
    else if x ≤ 0.40 then "Medium (20–40%)"
    else "High (40%+)"

/-! ## ETL pipeline (`main` of `etl/clean_superstore.py`) -/

/-- A pandas `Timestamp`'s calendar fields, as far as the pipeline reads them
(`.dt.year`, `.dt.to_period("M")`, day subtraction). -/
structure PyDate where
  year : Int
  month : Int
  day : Int
deriving DecidableEq, Repr

/-- A pandas cell: missing (`NaN`/`NaT`), a string, a float (modelled `ℚ`),
a datetime, or a nullable `Int64`. -/
inductive PValue where
  | na : PValue
  | s : String → PValue
  | n : ℚ → PValue
  | d : PyDate → PValue
  | i : Int → PValue
deriving DecidableEq, Repr

/-- A DataFrame: a header row and data rows, each row aligned with `cols`. -/
structure RawTable where
  cols : List String
  rows : List (List PValue)
deriving DecidableEq, Repr

/-- A fully blank row: every cell is missing.  `df.dropna(how="all")`
drops exactly these rows. -/
def fullyNa (r : List PValue) : Bool :=
  r.all (fun v => v == PValue.na)

/-- `df[name] = df[name].apply f` when columns may repeat: transform the
cells sitting under every column named `name`. -/
def mapCol (cols : List String) (name : String) (f : PValue → PValue)
    (rows : List (List PValue)) : List (List PValue) :=
  rows.map (fun r => (cols.zip r).map (fun p => if p.1 = name then f p.2 else p.2))

/-- `df[name]` for one row: the cell under the first column named `name`
(`.na` when the column is absent). -/
def getCell (cols : List String) (r : List PValue) (name : String) : PValue :=
  match cols.findIdx? (· = name) with
  | some j => r.getD j PValue.na
  | none => PValue.na

/-- The numeric content of a cell, for feeding `discount_bucket`. -/
def asNum : PValue → Option ℚ
  | PValue.n q => some q
  | _ => none

/-- The datetime content of a cell. -/
def asDate : PValue → Option PyDate
  | PValue.d dt => some dt
  | _ => none

/-- `pd.to_datetime(col, errors="coerce")` cellwise, given the library's
parser `pdDate`. -/
def coerceDate (pdDate : PValue → Option PyDate) (v : PValue) : PValue :=
  match pdDate v with
  | some dt => PValue.d dt
  | none => PValue.na

/-- `pd.to_numeric(col, errors="coerce")` cellwise, given the library's
parser `pdNum`. -/
def coerceNum (pdNum : PValue → Option ℚ) (v : PValue) : PValue :=
  match pdNum v with
  | some q => PValue.n q
  | none => PValue.na

/-- `col.astype("Int64")` cellwise, given the library's conversion `pdInt`. -/
def coerceInt (pdInt : PValue → Option Int) (v : PValue) : PValue :=
  match pdInt v with
  | some k => PValue.i k
  | none => PValue.na

/-- The `Ship Days` cell of one row:
`(df["Ship Date"] - df["Order Date"]).dt.days`, null when either date is
null; `dateSub` is the library's timestamp day-subtraction. -/
def shipDaysCell (dateSub : PyDate → PyDate → Int) (cols : List String)
    (r : List PValue) : PValue :=
  match asDate (getCell cols r "Ship Date"), asDate (getCell cols r "Order Date") with
  | some sd, some od => PValue.n ((dateSub sd od : Int) : ℚ)
  | _, _ => PValue.na

/-- The `Discount Bucket` cell of one row:
`df["Discount"].apply(discount_bucket)`. -/
def discountBucketCell (cols : List String) (r : List PValue) : PValue :=
  PValue.s (discount_bucket (asNum (getCell cols r "Discount")))

/-- One `if col in df.columns: df[col] = <coercion>` statement of `main`. -/
def stageIfCol (cols : List String) (n : String) (f : PValue → PValue)
    (rows : List (List PValue)) : List (List PValue) :=
  if cols.contains n then mapCol cols n f rows else rows

/-- The `Ship Days` block of `main`: when both date columns exist, append
the derived column. -/
def addShipDaysStage (dateSub : PyDate → PyDate → Int) (cols : List String)
    (rows : List (List PValue)) : List String × List (List PValue) :=
  if cols.contains "Order Date" && cols.contains "Ship Date" then
    (cols ++ ["Ship Days"], rows.map (fun r => r ++ [shipDaysCell dateSub cols r]))
  else (cols, rows)

/-- The `Discount Bucket` block of `main`: when the `Discount` column
exists, append the derived column. -/
def addBucketStage (t : List String × List (List PValue)) :
    List String × List (List PValue) :=
  if t.1.contains "Discount" then
    (t.1 ++ ["Discount Bucket"], t.2.map (fun r => r ++ [discountBucketCell t.1 r]))
  else t

/-- The cleaning pipeline of `main`, from the parsed CSV to the DataFrame
that is written out: column normalization, dropping fully blank rows, date
parsing, numeric coercion, postal-code conversion, and the two helper
fields.  The pandas parsing primitives are the function parameters. -/
def etlPipeline (pdDate : PValue → Option PyDate) (pdNum : PValue → Option ℚ)
    (pdInt : PValue → Option Int) (dateSub : PyDate → PyDate → Int)
    (raw : RawTable) : RawTable :=
  let cols := normalize_columns raw.cols
  -- df.dropna(how="all")
  let rows := raw.rows.filter (fun r => ! fullyNa r)
  -- date parsing, for col in ["Order Date", "Ship Date"]
  let rows := stageIfCol cols "Order Date" (coerceDate pdDate) rows
  let rows := stageIfCol cols "Ship Date" (coerceDate pdDate) rows
  -- numeric coercion, for col in ["Sales", "Profit", "Discount", "Quantity"]
  let rows := stageIfCol cols "Sales" (coerceNum pdNum) rows
  let rows := stageIfCol cols "Profit" (coerceNum pdNum) rows
  let rows := stageIfCol cols "Discount" (coerceNum pdNum) rows
  let rows := stageIfCol cols "Quantity" (coerceNum pdNum) rows
  -- Postal Code astype("Int64")
  let rows := stageIfCol cols "Postal Code" (coerceInt pdInt) rows
  -- the two helper fields
  let withBucket := addBucketStage (addShipDaysStage dateSub cols rows)
  ⟨withBucket.1, withBucket.2⟩

/-- `df.duplicated(subset=["Order ID"]).sum()`: rows whose key cell equals
an earlier row's key cell (pandas counts repeated nulls as duplicates). -/
def countDups : List PValue → List PValue → Nat
  | _, [] => 0
  | seen, v :: vs =>
    (if v ∈ seen then 1 else 0) + countDups (v :: seen) vs

/-- Lexicographic order on dates, for the profiling min/max. -/
def dateLe (a b : PyDate) : Bool :=
  a.year < b.year || (a.year = b.year &&
    (a.month < b.month || (a.month = b.month && a.day ≤ b.day)))

/-- `str(series.min())` over the datetime column (NaN skipped). -/
def dateMinStr (l : List PyDate) : String :=
  match l with
  | [] => "NaT"
  | x :: xs => let m := xs.foldl (fun acc dt => if dateLe dt acc then dt else acc) x
    toString m.year ++ "-" ++ toString m.month ++ "-" ++ toString m.day

/-- `str(series.max())` over the datetime column (NaN skipped). -/
def dateMaxStr (l : List PyDate) : String :=
  match l with
  | [] => "NaT"
  | x :: xs => let m := xs.foldl (fun acc dt => if dateLe acc dt then dt else acc) x
    toString m.year ++ "-" ++ toString m.month ++ "-" ++ toString m.day

/-- Insertion step for a descending stable sort by count. -/
def insertDesc (x : String × Nat) : List (String × Nat) → List (String × Nat)
  | [] => [x]
  | y :: ys => if x.2 > y.2 then x :: y :: ys else y :: insertDesc x ys

/-- Sort (column, null-count) pairs by descending count. -/
def sortDesc (l : List (String × Nat)) : List (String × Nat) :=
  l.foldr insertDesc []

/-- The profiling summary written next to the cleaned CSV: row/column
counts, Order-ID statistics when the column exists, min/max order date when
that column exists, and the top-25 columns by null count. -/
def profiling (t : RawTable) : List (String × String) :=
  let base := [("rows", toString t.rows.length), ("columns", toString t.cols.length)]
  let oid := if t.cols.contains "Order ID" then
      let col := t.rows.map (fun r => getCell t.cols r "Order ID")
      [("unique_order_ids", toString ((col.filter (· ≠ PValue.na)).dedup.length)),
       ("duplicate_order_id_rows", toString (countDups [] col))]
    else []
  let dates := if t.cols.contains "Order Date" then
      let col := (t.rows.map (fun r => getCell t.cols r "Order Date")).filterMap asDate
      [("order_date_min", dateMinStr col), ("order_date_max", dateMaxStr col)]
    else []
  let nulls := sortDesc (t.cols.enum.map (fun p =>
      (p.2, (t.rows.filter (fun r => r.getD p.1 PValue.na = PValue.na)).length)))
  base ++ oid ++ dates ++ (nulls.take 25).map (fun p => (p.1, toString p.2))

/-- `main` of `etl/clean_superstore.py`: `none` input models an unreadable
source file (`pd.read_csv` raising, the only fatal error); otherwise the
pipeline runs and BOTH artifacts — the cleaned table and the profiling
report — are produced, with no required-column check anywhere. -/
def etlMain (pdDate : PValue → Option PyDate) (pdNum : PValue → Option ℚ)
    (pdInt : PValue → Option Int) (dateSub : PyDate → PyDate → Int)
    (input : Option RawTable) : Except String (RawTable × List (String × String)) :=
  match input with
  | none => Except.error "IOError: cannot read input file"
  | some raw =>
    let t := etlPipeline pdDate pdNum pdInt dateSub raw
    Except.ok (t, profiling t)

/-! ## Dashboard loading (`load_data` of `dash_app/app.py`) -/

/-- A row of the cleaned CSV as `pd.read_csv(..., parse_dates=...)` hands it
to `load_data`, before the derived columns are added.  Missing cells are
`none`. -/
structure PreRow where
  orderDate : Option PyDate
  shipDate : Option PyDate
  orderId : Option String
  region : Option String
  segment : Option String
  category : Option String
  subCategory : Option String
  sales : Option ℚ
  profit : Option ℚ
  discount : Option ℚ
  discountBucket : Option String
  shipMode : Option String
  state : Option String
deriving DecidableEq, Repr

/-- A row of the in-memory table `DF`, after `load_data` added `Year`,
`Month` (first-of-month, keyed by year and month) and `State Abbr`. -/
structure LoadedRow extends PreRow where
  year : Option Int
  month : Option (Int × Int)
  stateAbbr : Option String
deriving DecidableEq, Repr

/-- The fixed State → Abbreviation table `STATE_TO_ABBR`. -/
def STATE_TO_ABBR : List (String × String) :=
  [("Alabama", "AL"), ("Alaska", "AK"), ("Arizona", "AZ"), ("Arkansas", "AR"),
   ("California", "CA"), ("Colorado", "CO"), ("Connecticut", "CT"),
   ("Delaware", "DE"), ("Florida", "FL"), ("Georgia", "GA"), ("Hawaii", "HI"),
   ("Idaho", "ID"), ("Illinois", "IL"), ("Indiana", "IN"), ("Iowa", "IA"),
   ("Kansas", "KS"), ("Kentucky", "KY"), ("Louisiana", "LA"), ("Maine", "ME"),
   ("Maryland", "MD"), ("Massachusetts", "MA"), ("Michigan", "MI"),
   ("Minnesota", "MN"), ("Mississippi", "MS"), ("Missouri", "MO"),
   ("Montana", "MT"), ("Nebraska", "NE"), ("Nevada", "NV"),
   ("New Hampshire", "NH"), ("New Jersey", "NJ"), ("New Mexico", "NM"),
   ("New York", "NY"), ("North Carolina", "NC"), ("North Dakota", "ND"),
   ("Ohio", "OH"), ("Oklahoma", "OK"), ("Oregon", "OR"),
   ("Pennsylvania", "PA"), ("Rhode Island", "RI"), ("South Carolina", "SC"),
   ("South Dakota", "SD"), ("Tennessee", "TN"), ("Texas", "TX"),
   ("Utah", "UT"), ("Vermont", "VT"), ("Virginia", "VA"),
   ("Washington", "WA"), ("West Virginia", "WV"), ("Wisconsin", "WI"),
   ("Wyoming", "WY"), ("District of Columbia", "DC")]

/-- `df["State"].map(STATE_TO_ABBR)` for one state value: `none` (pandas
`NaN`) when the state is not a key of the table. -/
def mapStateAbbr (s : String) : Option String :=
  STATE_TO_ABBR.lookup s

/-- One row's derived columns, as `load_data` computes them:
`Year = Order Date .dt.year`, `Month = Order Date` truncated to its month,
`State Abbr = State mapped through STATE_TO_ABBR`. -/
def loadRow (p : PreRow) : LoadedRow :=
  { toPreRow := p,
    year := p.orderDate.map (fun dt => dt.year),
    month := p.orderDate.map (fun dt => (dt.year, dt.month)),
    stateAbbr := p.state.bind mapStateAbbr }

/-- The cleaned CSV as a header plus typed rows. -/
structure CsvTable where
  cols : List String
  rows : List PreRow
deriving Repr

/-- The `needed` list of `load_data`. -/
def neededCols : List String :=
  ["Order Date", "Region", "Segment", "Category", "Sub-Category", "Sales",
   "Profit", "Discount", "Ship Mode", "State", "Order ID"]

/-- `load_data`: raise `ValueError` naming the missing required columns, or
build the in-memory table with the three derived columns. -/
def load_data (t : CsvTable) : Except String (List LoadedRow) :=
  let missing := neededCols.filter (fun c => ! t.cols.contains c)
  if missing ≠ [] then
    Except.error ("Missing required columns: " ++ toString missing)
  else
    Except.ok (t.rows.map loadRow)

/-! ## Query engine (`filter_df` and the `update` callback) -/

/-- Sum of a float column, pandas `.sum()` skipping missing values. -/
def sumOpt (l : List (Option ℚ)) : ℚ :=
  l.foldr (fun o a => match o with | some x => x + a | none => a) 0

/-- `float(dff["Sales"].sum())`. -/
def total_sales (t : List LoadedRow) : ℚ :=
  sumOpt (t.map (fun r => r.sales))

/-- `float(dff["Profit"].sum())`. -/
def total_profit (t : List LoadedRow) : ℚ :=
  sumOpt (t.map (fun r => r.profit))

/-- `int(dff["Order ID"].nunique())`: distinct non-null Order IDs. -/
def orders (t : List LoadedRow) : Nat :=
  (t.filterMap (fun r => r.orderId)).dedup.length

/-- `margin = (total_profit / total_sales) if total_sales else 0.0`. -/
def margin (t : List LoadedRow) : ℚ :=
  if total_sales t = 0 then 0 else total_profit t / total_sales t

/-- `aov = (total_sales / orders) if orders else 0.0`. -/
def aov (t : List LoadedRow) : ℚ :=
  if orders t = 0 then 0 else total_sales t / (orders t : ℚ)

/-- The year predicate of `filter_df`: `dff["Year"] == int(year)`.  The
dashboard only ever passes year strings taken from the Year dropdown, so
`int(year)` succeeds; an unparseable string (where Python would raise) is
modelled as matching no row. -/
def yearMatches (year : String) (r : LoadedRow) : Bool :=
  match year.toInt? with
  | some n => r.year == some n
  | none => false

/-- `filter_df`: start from a copy of the loaded table and AND the four
optional equality predicates, skipping each dimension equal to "All". -/
def filter_df (df : List LoadedRow) (region segment category year : String) :
    List LoadedRow :=
  let dff := df
  let dff := if region ≠ "All" then
      dff.filter (fun r => r.region == some region) else dff
  let dff := if segment ≠ "All" then
      dff.filter (fun r => r.segment == some segment) else dff
  let dff := if category ≠ "All" then
      dff.filter (fun r => r.category == some category) else dff
  let dff := if year ≠ "All" then dff.filter (yearMatches year) else dff
  dff

/-- A row of the monthly trend aggregation. -/
structure TrendRow where
  month : Int × Int
  sales : ℚ
  profit : ℚ
deriving DecidableEq, Repr

/-- A row of the by-state aggregation. -/
structure StateRow where
  abbr : String
  sales : ℚ
  profit : ℚ
deriving DecidableEq, Repr

/-- A row of the by-sub-category aggregation. -/
structure SubRow where
  sub : String
  sales : ℚ
  profit : ℚ
deriving DecidableEq, Repr

/-- A row of the discount-bucket aggregation, with its added `Margin`
column. -/
structure DiscRow where
  bucket : String
  sales : ℚ
  profit : ℚ
  marginB : ℚ
deriving DecidableEq, Repr

/-- A row of the ship-mode aggregation, with its added `Profit per Order`
column. -/
structure ShipRow where
  mode : String
  profit : ℚ
  ordersG : Nat
  ppo : ℚ
deriving DecidableEq, Repr

/-- Ascending order on month keys (year, then month). -/
def monthLe (a b : Int × Int) : Bool :=
  a.1 < b.1 || (a.1 = b.1 && a.2 ≤ b.2)

/-- Insertion step of the stable ascending sort by month. -/
def insertByMonth (x : TrendRow) : List TrendRow → List TrendRow
  | [] => [x]
  | y :: ys => if monthLe x.month y.month then x :: y :: ys
    else y :: insertByMonth x ys

/-- `dff.groupby("Month").agg(sum Sales, sum Profit).sort_values("Month")`
(missing month keys are dropped by groupby). -/
def by_month (t : List LoadedRow) : List TrendRow :=
  (((t.filterMap (fun r => r.month)).dedup).map (fun k =>
    let g := t.filter (fun r => r.month == some k)
    TrendRow.mk k (sumOpt (g.map (fun r => r.sales)))
      (sumOpt (g.map (fun r => r.profit))))).foldr insertByMonth []

/-- `dff.dropna(subset=["State Abbr"]).groupby("State Abbr").agg(...)`:
group the rows with a resolved abbreviation; grouped contents are faithful,
pandas's alphabetical key order is not modelled (the spec requires none). -/
def by_state (t : List LoadedRow) : List StateRow :=
  let t' := t.filter (fun r => r.stateAbbr.isSome)
  ((t'.filterMap (fun r => r.stateAbbr)).dedup).map (fun k =>
    let g := t'.filter (fun r => r.stateAbbr == some k)
    StateRow.mk k (sumOpt (g.map (fun r => r.sales)))
      (sumOpt (g.map (fun r => r.profit))))

/-- Insertion step of the ascending sort by summed profit. -/
def insertByProfit (x : SubRow) : List SubRow → List SubRow
  | [] => [x]
  | y :: ys => if x.profit ≤ y.profit then x :: y :: ys
    else y :: insertByProfit x ys

/-- `dff.groupby("Sub-Category").agg(...).sort_values("Profit")`. -/
def by_sub (t : List LoadedRow) : List SubRow :=
  (((t.filterMap (fun r => r.subCategory)).dedup).map (fun k =>
    let g := t.filter (fun r => r.subCategory == some k)
    SubRow.mk k (sumOpt (g.map (fun r => r.sales)))
      (sumOpt (g.map (fun r => r.profit))))).foldr insertByProfit []

/-- `dff.groupby("Discount Bucket").agg(...)` followed by the rowwise
`Margin = (Profit / Sales) if Sales else 0.0`. -/
def by_disc (t : List LoadedRow) : List DiscRow :=
  ((t.filterMap (fun r => r.discountBucket)).dedup).map (fun k =>
    let g := t.filter (fun r => r.discountBucket == some k)
    let s := sumOpt (g.map (fun r => r.sales))
    let p := sumOpt (g.map (fun r => r.profit))
    DiscRow.mk k s p (if s = 0 then 0 else p / s))

/-- `dff.groupby("Ship Mode").agg(sum Profit, nunique Order ID)` followed
by the rowwise `Profit per Order = (Profit / Orders) if Orders else 0.0`. -/
def by_ship (t : List LoadedRow) : List ShipRow :=
  ((t.filterMap (fun r => r.shipMode)).dedup).map (fun k =>
    let g := t.filter (fun r => r.shipMode == some k)
    let p := sumOpt (g.map (fun r => r.profit))
    let o := (g.filterMap (fun r => r.orderId)).dedup.length
    ShipRow.mk k p o (if o = 0 then 0 else p / (o : ℚ)))

/-- The Aggregate Result of one query: the five KPI scalars and the five
grouped tables. -/
structure AggResult where
  totalSales : ℚ
  totalProfit : ℚ
  ordersK : Nat
  marginK : ℚ
  aovK : ℚ
  trend : List TrendRow
  byState : List StateRow
  bySub : List SubRow
  byDisc : List DiscRow
  byShip : List ShipRow
deriving DecidableEq, Repr

/-- The `update` callback's computation over the module-global table `DF`:
filter, compute the KPIs and the five aggregations.  The second component
is the value of `DF` after the call — the callback reads `DF` only through
`filter_df`'s copy, every pandas operation it performs builds a new frame
(or writes a column of such a new frame), and no statement assigns to `DF`,
so the global is returned unchanged. -/
def update (df : List LoadedRow) (region segment category year : String) :
    AggResult × List LoadedRow :=
  let dff := filter_df df region segment category year
  (AggResult.mk (total_sales dff) (total_profit dff) (orders dff)
    (margin dff) (aov dff) (by_month dff) (by_state dff) (by_sub dff)
    (by_disc dff) (by_ship dff), df)

/-! ## Concrete sample data for closed instances -/

/-- A CSV row with every field missing. -/
def basePre : PreRow :=
  ⟨none, none, none, none, none, none, none, none, none, none, none, none, none⟩

/-- A loaded row whose Order ID is "US-001". -/
def rowUS1 : LoadedRow :=
  loadRow { basePre with orderId := some "US-001" }

/-- A second loaded row with the same Order ID "US-001". -/
def rowUS1' : LoadedRow :=
  loadRow { basePre with orderId := some "US-001", sales := some 7 }

/-- A CSV row whose State is not a key of `STATE_TO_ABBR`. -/
def preGuam : PreRow :=
  { basePre with
    state := some "Guam"
    orderId := some "G-1"
    sales := some 5
    profit := some 2 }

/-- A raw input table that lacks the required `Sales` column (and others). -/
def rawNoSales : RawTable :=
  ⟨["Order Date", "Region"], [[PValue.s "2017-01-02", PValue.s "West"]]⟩

/-- A cleaned-CSV header that lacks the required `Sales` column. -/
def csvNoSales : CsvTable :=
  ⟨["Order Date", "Region", "Segment", "Category", "Sub-Category",
    "Profit", "Discount", "Ship Mode", "State", "Order ID"], []⟩

/-! ## Claims -/

/-- C2: for every input `d`, `discount_bucket d` is one of the five
literals, with "Unknown" for a missing/non-numeric value, "No Discount" at
0, "Low (0–20%)" on (0, 0.20], "Medium (20–40%)" on (0.20, 0.40], and
"High (40%+)" above 0.40; being a Lean function it is deterministic and
side-effect-free. -/
theorem discount_bucket_spec_table (d : Option ℚ) :
    discount_bucket d ∈
      ["Unknown", "No Discount", "Low (0–20%)", "Medium (20–40%)", "High (40%+)"] ∧
    (d = none → discount_bucket d = "Unknown") ∧
    (∀ y : ℚ, d = some y →
      (y = 0 → discount_bucket d = "No Discount") ∧
      (0 < y → y ≤ 0.20 → discount_bucket d = "Low (0–20%)") ∧
      (0.20 < y → y ≤ 0.40 → discount_bucket d = "Medium (20–40%)") ∧
      (0.40 < y → discount_bucket d = "High (40%+)")) := by
  have h02 : (0 : ℚ) < 0.20 := by norm_num
  have h24 : (0.20 : ℚ) < 0.40 := by norm_num
  obtain _ | x := d
  · exact ⟨by simp [discount_bucket], fun _ => rfl, by simp⟩
  · refine ⟨?_, by simp, ?_⟩
    · simp only [discount_bucket]
      split_ifs <;> simp
    · rintro y ⟨rfl⟩
      refine ⟨fun h0 => by simp [discount_bucket, h0], fun ha hb => ?_,
        fun ha hb => ?_, fun ha => ?_⟩
      · simp only [discount_bucket]
        rw [if_neg (by linarith), if_pos hb]
      · simp only [discount_bucket]
        rw [if_neg (by linarith), if_neg (by linarith), if_pos hb]
      · simp only [discount_bucket]
        rw [if_neg (by linarith), if_neg (by linarith), if_neg (by linarith)]

/-- Closed instance of C2 at the concrete inputs `some 0` and `none`. -/
theorem discount_bucket_spec_table_witness :
    discount_bucket (some 0) = "No Discount" ∧
    discount_bucket none = "Unknown" :=
  ⟨((discount_bucket_spec_table (some 0)).2.2 0 rfl).1 rfl,
   (discount_bucket_spec_table none).2.1 rfl⟩

/-- C10: a strictly negative numeric discount fails the `== 0` test and
satisfies the `<= 0.20` test, so it lands in "Low (0–20%)", not
"Unknown". -/
theorem discount_bucket_negative_low (x : ℚ) (h : x < 0) :
    discount_bucket (some x) = "Low (0–20%)" := by
  have h02 : (0 : ℚ) < 0.20 := by norm_num
  simp only [discount_bucket]
  rw [if_neg (by linarith), if_pos (by linarith)]

/-- Closed instance of C10 at the concrete input `-1/2`. -/
theorem discount_bucket_negative_low_witness :
    discount_bucket (some (mkRat (-1) 2)) = "Low (0–20%)" :=
  discount_bucket_negative_low (mkRat (-1) 2) (by decide)

/-- C3: the all-"All" selection skips every predicate, so the filtered
table is the whole table and all five KPIs equal the unfiltered
aggregates. -/
theorem all_all_selection_unfiltered (df : List LoadedRow) :
    filter_df df "All" "All" "All" "All" = df ∧
    total_sales (filter_df df "All" "All" "All" "All") = total_sales df ∧
    total_profit (filter_df df "All" "All" "All" "All") = total_profit df ∧
    orders (filter_df df "All" "All" "All" "All") = orders df ∧
    margin (filter_df df "All" "All" "All" "All") = margin df ∧
    aov (filter_df df "All" "All" "All" "All") = aov df := by
  have h : filter_df df "All" "All" "All" "All" = df := by
    simp [filter_df]
  exact ⟨h, by rw [h], by rw [h], by rw [h], by rw [h], by rw [h]⟩

/-- C9: the `update` callback leaves the loaded table `DF` unchanged (its
embedding threads the global through untouched, since every pandas
operation in the callback acts on `filter_df`'s copy or on freshly built
frames), and re-running the query on the post-call table gives the
identical result. -/
theorem query_side_effect_free (df : List LoadedRow)
    (region segment category year : String) :
    (update df region segment category year).2 = df ∧
    update (update df region segment category year).2 region segment category year
      = update df region segment category year :=
  ⟨rfl, rfl⟩

/-- C1: on every filtered subset, each ratio KPI is zero-guarded: Margin is
0 when Total Sales is 0, AOV is 0 when Orders is 0, each discount bucket's
Margin is 0 when that bucket's Sales is 0, and each ship mode's Profit per
Order is 0 when that mode's distinct-order count is 0. -/
theorem kpi_ratio_zero_guards (df : List LoadedRow)
    (region segment category year : String) :
    (total_sales (filter_df df region segment category year) = 0 →
      margin (filter_df df region segment category year) = 0) ∧
    (orders (filter_df df region segment category year) = 0 →
      aov (filter_df df region segment category year) = 0) ∧
    (∀ e ∈ by_disc (filter_df df region segment category year),
      e.sales = 0 → e.marginB = 0) ∧
    (∀ e ∈ by_ship (filter_df df region segment category year),
      e.ordersG = 0 → e.ppo = 0) := by
  refine ⟨fun h => by simp [margin, h], fun h => by simp [aov, h], ?_, ?_⟩
  · intro e he hz
    simp only [by_disc, List.mem_map] at he
    obtain ⟨k, _, rfl⟩ := he
    simp only at hz ⊢
    rw [if_pos hz]
  · intro e he hz
    simp only [by_ship, List.mem_map] at he
    obtain ⟨k, _, rfl⟩ := he
    simp only at hz ⊢
    rw [if_pos hz]

/-- Closed instance of C1 on the empty filtered subset. -/
theorem kpi_ratio_zero_guards_witness :
    margin (filter_df [] "All" "All" "All" "All") = 0 ∧
    aov (filter_df [] "All" "All" "All" "All") = 0 :=
  ⟨(kpi_ratio_zero_guards [] "All" "All" "All" "All").1 rfl,
   (kpi_ratio_zero_guards [] "All" "All" "All" "All").2.1 rfl⟩

/-- C8: the Orders KPI is the number of distinct non-null Order ID values
of the filtered subset; in particular two rows sharing Order ID "US-001"
contribute 1, not 2. -/
theorem orders_kpi_distinct_order_ids (t : List LoadedRow) :
    orders t = (t.filterMap (fun r => r.orderId)).toFinset.card ∧
    (∀ r1 r2 : LoadedRow, r1.orderId = some "US-001" →
      r2.orderId = some "US-001" → orders [r1, r2] = 1) := by
  constructor
  · simp [orders, List.card_toFinset]
  · intro r1 r2 h1 h2
    simp [orders, List.filterMap_cons, h1, h2, List.dedup_cons_of_mem]

/-- Closed instance of C8: two concrete rows with Order ID "US-001" count
as one order. -/
theorem orders_kpi_distinct_order_ids_witness :
    orders [rowUS1, rowUS1'] = 1 :=
  (orders_kpi_distinct_order_ids []).2 rowUS1 rowUS1' rfl rfl

/-- C7: a row whose State is not a key of `STATE_TO_ABBR` gets a null
State Abbr at load time, is excluded from the by-state aggregation, yet
still contributes its Sales and Profit to the KPI totals and its (fresh)
Order ID to the Orders count of the same query. -/
theorem unknown_state_row_kpis_not_geo (p : PreRow) (s : String)
    (t : List LoadedRow) (hs : p.state = some s)
    (hn : mapStateAbbr s = none) :
    (loadRow p).stateAbbr = none ∧
    by_state (loadRow p :: t) = by_state t ∧
    total_sales (loadRow p :: t) = p.sales.getD 0 + total_sales t ∧
    total_profit (loadRow p :: t) = p.profit.getD 0 + total_profit t ∧
    (∀ oid, p.orderId = some oid →
      oid ∉ t.filterMap (fun r => r.orderId) →
      orders (loadRow p :: t) = orders t + 1) := by
  have habbr : (loadRow p).stateAbbr = none := by
    simp [loadRow, hs, hn]
  refine ⟨habbr, ?_, ?_, ?_, ?_⟩
  · simp [by_state, List.filter_cons, habbr]
  · cases hsl : p.sales <;>
      simp [total_sales, sumOpt, loadRow, hsl]
  · cases hpl : p.profit <;>
      simp [total_profit, sumOpt, loadRow, hpl]
  · intro oid hoid hnot
    have hlo : (loadRow p).orderId = some oid := by simp [loadRow, hoid]
    simp only [orders, List.filterMap_cons, hlo]
    rw [List.dedup_cons_of_not_mem hnot, List.length_cons]

/-- Closed instance of C7 at a concrete row with State "Guam". -/
theorem unknown_state_row_kpis_not_geo_witness :
    (loadRow preGuam).stateAbbr = none ∧
    by_state [loadRow preGuam] = by_state [] ∧
    orders [loadRow preGuam] = orders [] + 1 := by
  have h := unknown_state_row_kpis_not_geo preGuam "Guam" [] rfl (by decide)
  exact ⟨h.1, h.2.1, h.2.2.2.2 "G-1" rfl (by simp)⟩

/-- Every word the tokenizer produces from a whitespace-free accumulator is
nonempty and whitespace-free. -/
theorem wordsAux_ok (l : List Char) : ∀ (acc : List Char),
    (∀ c ∈ acc, c.isWhitespace = false) →
    ∀ w ∈ wordsAux acc l, w ≠ [] ∧ ∀ c ∈ w, c.isWhitespace = false := by
  induction l with
  | nil =>
    intro acc hacc w hw
    simp only [wordsAux] at hw
    split at hw
    · simp at hw
    · rename_i hne
      simp only [List.mem_singleton] at hw
      subst hw
      exact ⟨by simpa using hne, fun c hc => hacc c (List.mem_reverse.mp hc)⟩
  | cons c cs ih =>
    intro acc hacc w hw
    simp only [wordsAux] at hw
    split at hw
    · split at hw
      · exact ih [] (by simp) w hw
      · rename_i hne
        rcases List.mem_cons.mp hw with rfl | hw'
        · exact ⟨by simpa using hne, fun d hd => hacc d (List.mem_reverse.mp hd)⟩
        · exact ih [] (by simp) w hw'
    · rename_i hws
      refine ih (c :: acc) ?_ w hw
      intro d hd
      rcases List.mem_cons.mp hd with rfl | hd'
      · simpa using hws
      · exact hacc d hd'

/-- Feeding a whitespace-free word into the tokenizer just extends the
accumulator. -/
theorem wordsAux_append (w : List Char) : ∀ (acc rest : List Char),
    (∀ c ∈ w, c.isWhitespace = false) →
    wordsAux acc (w ++ rest) = wordsAux (w.reverse ++ acc) rest := by
  induction w with
  | nil => intro acc rest _; simp
  | cons c w' ih =>
    intro acc rest hw
    have hc : c.isWhitespace = false := hw c (List.mem_cons_self c w')
    simp only [List.cons_append, wordsAux, List.append_eq]
    rw [if_neg (by simp [hc])]
    rw [ih (c :: acc) rest (fun d hd => hw d (List.mem_cons_of_mem c hd))]
    simp

/-- Tokenizing a single-space join of nonempty whitespace-free words gives
the words back. -/
theorem words_join : ∀ (ws : List (List Char)),
    (∀ w ∈ ws, w ≠ [] ∧ ∀ c ∈ w, c.isWhitespace = false) →
    wordsAux [] (joinSpace ws) = ws := by
  intro ws
  induction ws with
  | nil => intro _; simp [joinSpace, wordsAux]
  | cons w ws' ih =>
    intro h
    obtain ⟨hne, hwf⟩ := h w (List.mem_cons_self w ws')
    cases ws' with
    | nil =>
      simp only [joinSpace]
      have hva := wordsAux_append w [] [] hwf
      simp only [List.append_nil] at hva
      rw [hva]
      simp only [wordsAux]
      rw [if_neg (by simpa using hne)]
      simp
    | cons v vs =>
      simp only [joinSpace]
      rw [wordsAux_append w [] (' ' :: joinSpace (v :: vs)) hwf]
      simp only [List.append_nil, wordsAux]
      rw [if_pos (by decide)]
      rw [if_neg (by simpa using hne)]
      rw [ih (fun u hu => h u (List.mem_cons_of_mem w hu))]
      simp

/-- `normName` (trim and collapse whitespace) is idempotent. -/
theorem normName_idem (s : String) : normName (normName s) = normName s := by
  have hok := wordsAux_ok s.data [] (by simp)
  have hwords : words (normName s) = words s := by
    show wordsAux [] (joinSpace (wordsAux [] s.data)) = wordsAux [] s.data
    exact words_join _ hok
  show (⟨joinSpace (words (normName s))⟩ : String) = normName s
  rw [hwords]
  rfl

/-- A successful association-list lookup returns one of the stored
values. -/
theorem lookup_mem_snd {α β : Type} [BEq α] :
    ∀ (l : List (α × β)) (c : α) (v : β),
      l.lookup c = some v → v ∈ l.map Prod.snd := by
  intro l
  induction l with
  | nil => intro c v h; simp [List.lookup] at h
  | cons p ps ih =>
    intro c v h
    obtain ⟨k, b⟩ := p
    rw [List.lookup] at h
    split at h
    · injection h with h2
      subst h2
      simp
    · simp only [List.map_cons]
      exact List.mem_cons_of_mem _ (ih c v h)

/-- Every canonical value of the rename table is a fixed point of both
normalization passes. -/
theorem renames_values_fixed :
    ∀ v ∈ renames.map Prod.snd, normName v = v ∧ applyRenames v = v := by
  decide

/-- The per-name step of `normalize_columns` is idempotent. -/
theorem rename_step_idem (c : String) :
    applyRenames (normName (applyRenames (normName c)))
      = applyRenames (normName c) := by
  have hn : normName (normName c) = normName c := normName_idem c
  cases h : renames.lookup (normName c) with
  | some v =>
    have hv := renames_values_fixed v (lookup_mem_snd renames (normName c) v h)
    have h1 : applyRenames (normName c) = v := by simp [applyRenames, h]
    rw [h1, hv.1, hv.2]
  | none =>
    have h1 : applyRenames (normName c) = normName c := by simp [applyRenames, h]
    rw [h1, hn, h1]

/-- C5: column reconciliation is idempotent — applying `normalize_columns`
twice to any header list gives the same result as applying it once, so an
already-canonical header set is left unchanged. -/
theorem normalize_columns_idempotent (headers : List String) :
    normalize_columns (normalize_columns headers) = normalize_columns headers := by
  induction headers with
  | nil => rfl
  | cons c cs ih =>
    simp only [normalize_columns, List.map_cons] at ih ⊢
    rw [rename_step_idem c, ih]

/-- Dropping the rows that satisfy `p` keeps `length − (count of p)`
rows. -/
theorem length_filter_not_sub {α : Type} (p : α → Bool) (l : List α) :
    (l.filter (fun a => ! p a)).length = l.length - (l.filter p).length := by
  induction l with
  | nil => rfl
  | cons a l ih =>
    have hle : (l.filter p).length ≤ l.length := List.length_filter_le p l
    cases hpa : p a <;> simp [List.filter_cons, hpa] <;> omega

/-- C6: row pruning drops exactly the fully-empty rows: the cleaned
table's row count equals the count of not-fully-empty raw rows, which is
the raw row count minus the fully-empty row count (all later pipeline
stages are per-cell coercions that keep every row). -/
theorem row_pruning_count_invariant (pdDate : PValue → Option PyDate)
    (pdNum : PValue → Option ℚ) (pdInt : PValue → Option Int)
    (dateSub : PyDate → PyDate → Int) (raw : RawTable) :
    (etlPipeline pdDate pdNum pdInt dateSub raw).rows.length =
      (raw.rows.filter (fun r => ! fullyNa r)).length ∧
    (etlPipeline pdDate pdNum pdInt dateSub raw).rows.length =
      raw.rows.length - (raw.rows.filter fullyNa).length := by
  have hstage : ∀ (cols : List String) (n : String) (f : PValue → PValue)
      (rows : List (List PValue)), (stageIfCol cols n f rows).length = rows.length := by
    intro cols n f rows
    rw [stageIfCol]
    split <;> simp [mapCol]
  have hship : ∀ (cols : List String) (rows : List (List PValue)),
      (addShipDaysStage dateSub cols rows).2.length = rows.length := by
    intro cols rows
    rw [addShipDaysStage]
    split <;> simp
  have hbucket : ∀ (t : List String × List (List PValue)),
      (addBucketStage t).2.length = t.2.length := by
    intro t
    rw [addBucketStage]
    split <;> simp
  have h1 : (etlPipeline pdDate pdNum pdInt dateSub raw).rows.length =
      (raw.rows.filter (fun r => ! fullyNa r)).length := by
    simp only [etlPipeline]
    rw [hbucket, hship, hstage, hstage, hstage, hstage, hstage, hstage, hstage]
  exact ⟨h1, h1.trans (length_filter_not_sub fullyNa raw.rows)⟩

/-- C4, counterexample: the Normalizer performs no required-column check —
on an input table lacking the required `Sales` column it raises nothing
and still produces BOTH artifacts (cleaned table and profiling report). -/
theorem normalizer_missing_column_no_error :
    "Sales" ∈ neededCols ∧
    "Sales" ∉ normalize_columns rawNoSales.cols ∧
    etlMain (fun _ => none) (fun _ => none) (fun _ => none) (fun _ _ => 0)
        (some rawNoSales) =
      Except.ok
        (etlPipeline (fun _ => none) (fun _ => none) (fun _ => none)
            (fun _ _ => 0) rawNoSales,
          profiling (etlPipeline (fun _ => none) (fun _ => none) (fun _ => none)
            (fun _ _ => 0) rawNoSales)) :=
  ⟨by decide, by decide, rfl⟩

/-- C4, amended: the descriptive missing-required-columns error is raised
by the Query Engine's loader `load_data` (naming the missing columns and
producing no table), while the Normalizer checks nothing and always writes
both outputs for any readable input. -/
theorem missing_column_error_raised_by_loader (t : CsvTable)
    (h : neededCols.filter (fun c => ! t.cols.contains c) ≠ []) :
    load_data t =
      Except.error ("Missing required columns: " ++
        toString (neededCols.filter (fun c => ! t.cols.contains c))) ∧
    (∀ (pdDate : PValue → Option PyDate) (pdNum : PValue → Option ℚ)
        (pdInt : PValue → Option Int) (dateSub : PyDate → PyDate → Int)
        (raw : RawTable), ∃ out,
      etlMain pdDate pdNum pdInt dateSub (some raw) = Except.ok out) := by
  refine ⟨?_, fun _ _ _ _ _ => ⟨_, rfl⟩⟩
  simp only [load_data]
  rw [if_pos h]

/-- Closed instance of the amended C4 at a concrete header lacking
`Sales`. -/
theorem missing_column_error_raised_by_loader_witness :
    load_data csvNoSales =
      Except.error ("Missing required columns: " ++
        toString (neededCols.filter (fun c => ! csvNoSales.cols.contains c))) ∧
    ∃ out, etlMain (fun _ => none) (fun _ => none) (fun _ => none)
        (fun _ _ => 0) (some rawNoSales) = Except.ok out :=
  ⟨(missing_column_error_raised_by_loader csvNoSales (by decide)).1,
    (missing_column_error_raised_by_loader csvNoSales (by decide)).2
      (fun _ => none) (fun _ => none) (fun _ => none) (fun _ _ => 0) rawNoSales⟩

end Superstore
